import Mathlib

/-
Verification of the SQLE MySQL audit driver against its specification.

Part 1 embeds sqle/driver/mysql/util/util.go: the affected-rows estimator
(`GetAffectedRowNum`) and its helpers (`getSelectNodeFromSelect`,
`getSelectNodeFromUpdate`, `getSelectNodeFromDelete`, `newSelectWithCount`,
`checkSql`).  External collaborators (the pingcap SQL parser, the live
executor, EXPLAIN) are modelled as an environment of oracle functions, and
the estimator is instrumented with an explicit trace of the live-database
actions it performs, so "never submitted to the live database" is a
statement about the trace.
-/

namespace MysqlUtil

/-- Clauses of a parsed statement are kept abstract as their source text;
the rewrite only copies clause references between AST nodes, so the text
identity is all the claims need. -/
abbrev Clause := String

/-- The fields of *ast.SelectStmt consulted by GetAffectedRowNum:
From, Where, GroupBy, Having, OrderBy, Limit (nil = none). -/
structure SelectData where
  fromClause : Option Clause
  whereClause : Option Clause
  groupBy : Option Clause
  having : Option Clause
  orderBy : Option Clause
  limit : Option Clause
deriving DecidableEq

/-- The shape of *ast.InsertStmt.Select: an inner select, a union
(carrying its restored text, per restoreToSqlWithFlag), or another node. -/
inductive InsertSelectSrc where
  | innerSelect (s : SelectData)
  | innerUnion (restoredText : String)
  | innerOther
deriving DecidableEq

/-- The fields of *ast.InsertStmt consulted by GetAffectedRowNum:
Lists (the literal VALUES tuples, nil = none; tuple contents are opaque)
and Select. -/
structure InsertData where
  lists : Option (List Unit)
  sel : Option InsertSelectSrc
deriving DecidableEq

/-- The fields of *ast.UpdateStmt consulted by getSelectNodeFromUpdate:
TableRefs, Where, Order, Limit. -/
structure UpdateData where
  tableRefs : Option Clause
  whereClause : Option Clause
  order : Option Clause
  limit : Option Clause
deriving DecidableEq

/-- The fields of *ast.DeleteStmt consulted by getSelectNodeFromDelete:
TableRefs, Where, Order, Limit. -/
structure DeleteData where
  tableRefs : Option Clause
  whereClause : Option Clause
  order : Option Clause
  limit : Option Clause
deriving DecidableEq

/-- One parsed statement node, as classified by the type switch in
GetAffectedRowNum (util.go lines 39-75). -/
inductive SqlNode where
  | selectStmt (s : SelectData)
  | insertStmt (ins : InsertData)
  | updateStmt (u : UpdateData)
  | deleteStmt (d : DeleteData)
  | otherStmt
deriving DecidableEq

/-- The fresh count-select built by newSelectWithCount and populated by the
getSelectNodeFrom* helpers.  Its select list is fixed to the single
COUNT(1) aggregate (getCountFieldList), so only the four copied clauses
vary. -/
structure CountSelect where
  fromClause : Option Clause
  whereClause : Option Clause
  orderBy : Option Clause
  limit : Option Clause
deriving DecidableEq

/-- getSelectNodeFromSelect (util.go 207-229).  In Go each clause is copied
under a nil-guard into a nil-initialised field, which is the same as a
direct copy. -/
def getSelectNodeFromSelect (s : SelectData) : CountSelect :=
  { fromClause := s.fromClause
    whereClause := s.whereClause
    orderBy := s.orderBy
    limit := s.limit }

/-- getSelectNodeFromUpdate (util.go 185-205). -/
def getSelectNodeFromUpdate (u : UpdateData) : CountSelect :=
  { fromClause := u.tableRefs
    whereClause := u.whereClause
    orderBy := u.order
    limit := u.limit }

/-- getSelectNodeFromDelete (util.go 163-183). -/
def getSelectNodeFromDelete (d : DeleteData) : CountSelect :=
  { fromClause := d.tableRefs
    whereClause := d.whereClause
    orderBy := d.order
    limit := d.limit }

/-- Outcome of the classification type switch of GetAffectedRowNum
(util.go 39-75): either proceed to the rewrite with an optional fresh
count node, the cannotConvert flag and the (possibly replaced) origin
text; or return a literal tuple count immediately; or fail with
ErrUnsupportedSqlType. -/
inductive ClassifyResult where
  | build (newNode : Option CountSelect) (cannotConvert : Bool) (originSql : String)
  | immediate (n : Int)
  | unsupported
deriving DecidableEq

/-- The type switch of GetAffectedRowNum (util.go 39-75). -/
def classify (node : SqlNode) (originSql : String) : ClassifyResult :=
  match node with
  | .selectStmt s =>
      -- isGroupByAndHavingBothExist (line 41) is subsumed by GroupBy != nil
      .build (some (getSelectNodeFromSelect s)) (s.groupBy.isSome || s.limit.isSome) originSql
  | .insertStmt ins =>
      if ins.sel.isSome && ins.lists.isNone then
        -- isSelectInsert branch (lines 52-63)
        match ins.sel with
        | some (.innerSelect s) => .build (some (getSelectNodeFromSelect s)) false originSql
        | some (.innerUnion t) => .build none true t
        | some .innerOther => .build none false originSql
        | none => .unsupported
      else if ins.lists.isSome && ins.sel.isNone then
        -- isCommonInsert branch (lines 64-65): return len(stmt.Lists)
        .immediate (Int.ofNat (ins.lists.getD []).length)
      else
        .unsupported
  | .updateStmt u => .build (some (getSelectNodeFromUpdate u)) false originSql
  | .deleteStmt d => .build (some (getSelectNodeFromDelete d)) false originSql
  | .otherStmt => .unsupported

/-- strings.TrimRight(originSql, ";") (util.go 83). -/
def trimSemicolonSuffix (s : String) : String :=
  ⟨(s.data.reverse.dropWhile (fun c => c = ';')).reverse⟩

/-- The derived-table wrap of util.go 84:
"select count(*) from (<origin, semicolons trimmed>) as t". -/
def wrapSql (s : String) : String :=
  "select count(*) from (" ++ trimSemicolonSuffix s ++ ") as t"

/-- Deterministic rendering of the fresh count select, modelling the
external ast Restore (util.go 90-96).  The select list is the fixed
COUNT(1) field list installed by newSelectWithCount. -/
def restoreCountSelect (cs : CountSelect) : String :=
  "SELECT COUNT(1)"
    ++ (match cs.fromClause with | none => "" | some f => " FROM " ++ f)
    ++ (match cs.whereClause with | none => "" | some w => " WHERE " ++ w)
    ++ (match cs.orderBy with | none => "" | some o => " ORDER BY " ++ o)
    ++ (match cs.limit with | none => "" | some l => " LIMIT " ++ l)

/-- The sql-building step of GetAffectedRowNum (util.go 80-97). -/
def buildSql (newNode : Option CountSelect) (cannotConvert : Bool) (originSql : String) :
    Except String String :=
  if cannotConvert then
    .ok (wrapSql originSql)
  else
    match newNode with
    | none => .error ("get select node from " ++ originSql ++ " failed")
    | some n => .ok (restoreCountSelect n)

/-- The counting rewrite produced for one classified statement: classify
followed by buildSql.  Statements answered immediately or rejected as
unsupported produce no rewrite. -/
def rewriteOf (node : SqlNode) (originSql : String) : Except String String :=
  match classify node originSql with
  | .build nn cc o => buildSql nn cc o
  | .immediate _ => .error "no rewrite: literal insert"
  | .unsupported => .error "no rewrite: unsupported sql type"

/-- One row of the execution plan returned by the EXPLAIN collaborator:
access type and estimated rows (executor.ExplainRecord). -/
structure ExplainRecord where
  tp : String
  rows : Int
deriving DecidableEq

/-- executor.ExplainRecordAccessTypeAll: the full-table-scan access type. -/
def explainRecordAccessTypeAll : String := "ALL"

/-- The external collaborators of GetAffectedRowNum, as oracles:
the SQL parser (ParseOneSql), the select-field extractor predicate,
the EXPLAIN collaborator (explainRecordFunc), the live query
(conn.Db.QueryWithContext, modelled as returning the first column of each
result row), and strconv.ParseInt. -/
structure Env where
  parse : String → Except String SqlNode
  /-- Modelled from the spec: SelectFieldExtractor (its source is not part
  of the sampled files) decides whether a re-parsed statement's select
  list is exactly a single count aggregate
  ("IsSelectOnlyIncludeCountFunc"). -/
  isSelectOnlyIncludeCountFunc : SqlNode → Bool
  explain : String → Except String (List ExplainRecord)
  query : String → Except String (List String)
  parseInt : String → Except String Int

/-- checkSql (util.go 263-277): re-parse the rewritten SQL and verify its
select list is exactly one count aggregate. -/
def checkSql (env : Env) (affectRowSql : String) : Except String Unit :=
  match env.parse affectRowSql with
  | .error e => .error e
  | .ok node =>
      if env.isSelectOnlyIncludeCountFunc node then .ok ()
      else .error "affectRowSql error"

/-- A live-database action performed by the estimator: obtaining an
execution plan for a SQL text, or running it as a query. -/
inductive LiveAction where
  | explainAct (sql : String)
  | queryAct (sql : String)
deriving DecidableEq

/-- Sum of the Rows estimates over all plan rows (util.go 129,
estimatedRows). -/
def sumRows (recs : List ExplainRecord) : Int :=
  recs.foldl (fun a r => a + r.rows) 0

/-- The last plan row's Rows estimate, 0 when the plan is empty
(util.go 131, affetcCount). -/
def lastRows (recs : List ExplainRecord) : Int :=
  recs.foldl (fun _ r => r.rows) 0

/-- GetAffectedRowNum (util.go 24-161), instrumented with the trace of
live-database actions it performs.  The result component is the Go
(int64, error) pair collapsed into Except. -/
def GetAffectedRowNum (env : Env) (originSql : String) :
    Except String Int × List LiveAction :=
  match env.parse originSql with
  | .error e => (.error e, [])
  | .ok node =>
    match classify node originSql with
    | .unsupported => (.error "unsupported sql type", [])
    | .immediate n => (.ok n, [])
    | .build nn cc osql =>
      match buildSql nn cc osql with
      | .error e => (.error e, [])
      | .ok affectedRowSql =>
        match checkSql env affectedRowSql with
        | .error e => (.error ("check sql failed: " ++ e), [])
        | .ok _ =>
          match env.explain affectedRowSql with
          | .error e =>
              (.error ("get affected rows sql execution plan failed: " ++ e),
               [.explainAct affectedRowSql])
          | .ok epRecords =>
            let notUseIndex :=
              epRecords.any (fun r => r.tp == explainRecordAccessTypeAll)
            if notUseIndex || decide (sumRows epRecords > 100000) then
              (.ok (lastRows epRecords), [.explainAct affectedRowSql])
            else
              match env.query affectedRowSql with
              | .error e =>
                  (.error ("get affected rows failed: " ++ e),
                   [.explainAct affectedRowSql, .queryAct affectedRowSql])
              | .ok rows =>
                match rows with
                | [] =>
                    -- util.go 146-149: empty result set yields 0, nil
                    (.ok 0, [.explainAct affectedRowSql, .queryAct affectedRowSql])
                | firstCell :: _ =>
                  match env.parseInt firstCell with
                  | .error e =>
                      (.error e,
                       [.explainAct affectedRowSql, .queryAct affectedRowSql])
                  | .ok n =>
                      (.ok n, [.explainAct affectedRowSql, .queryAct affectedRowSql])

end MysqlUtil

/-
Part 2 embeds the MysqlDriverImpl audit pipeline (driver file, package
mysql): the per-statement audit (`audit`), the batch entry point
(`Audit`), the rule-dispatch loop, and the online-DDL ghost decision
(`onlineddlWithGhost`).  Session context, rule handlers, gh-ost and OSC
generation are external collaborators, modelled as oracle fields of
AuditEnv; the per-statement audit is a staged function over them.
-/

namespace MysqlDriver

/-- driverV2 rule levels (RuleLevelNormal < Notice < Warn < Error). -/
inductive RuleLevel where
  | lvlNormal
  | lvlNotice
  | lvlWarn
  | lvlError
deriving DecidableEq

/-- One finding added to the statement's AuditResults: the level, the
rule name it is attributed to, and the dynamic detail threaded into the
rendered message (the handler error text, an optimize advice, an OSC
command line); none for purely static messages. -/
structure Finding where
  level : RuleLevel
  ruleName : String
  detail : Option String
deriving DecidableEq

/-- A configured rule as seen by the audit loop: its name and its
configured level. -/
structure Rule where
  name : String
  level : RuleLevel
deriving DecidableEq

/-- rulepkg.ConfigDDLGhostMinSize (rule-name constant; the literal lives
outside the sampled files, only its identity matters). -/
def configDDLGhostMinSize : String := "ddl_ghost_min_size"

/-- rulepkg.ConfigDDLOSCMinSize. -/
def configDDLOSCMinSize : String := "ddl_osc_min_size"

/-- rulepkg.ConfigOptimizeIndexEnabled. -/
def configOptimizeIndexEnabled : String := "optimize_index_enabled"

/-- The rule name used for the pre-check warning finding
(audit, "pre_check_err"). -/
def preCheckErrRuleName : String := "pre_check_err"

/-- What the dispatch loop does with one rule: skip it (no handler
registered, offline- or executed-SQL filter), or run its handler, which
appends some findings to the shared result set and optionally returns an
internal error. -/
inductive DispatchOutcome where
  | skip
  | run (appended : List Finding) (err : Option String)

/-- The rule-dispatch loop of audit (driver file, lines 373-405): each
rule is processed in order; a handler error adds a finding at the rule's
configured level attributed to the rule's name (AddResultWithError) and
the loop continues with the remaining rules. -/
def dispatchRules (outcome : String → DispatchOutcome) :
    List Rule → List Finding → List Finding
  | [], acc => acc
  | r :: rs, acc =>
    match outcome r.name with
    | .skip => dispatchRules outcome rs acc
    | .run appended none => dispatchRules outcome rs (acc ++ appended)
    | .run appended (some e) =>
        dispatchRules outcome rs (acc ++ appended ++ [⟨r.level, r.name, some e⟩])

/-- The ghostRule assignment inside the loop (line 373-376): the last
rule whose name is ConfigDDLGhostMinSize wins. -/
def findGhostRule (rules : List Rule) : Option Rule :=
  rules.foldl (fun acc r => if r.name == configDDLGhostMinSize then some r else acc) none

/-- The statement-node information the audited stages consult: whether
the first parsed node is an ALTER TABLE statement. -/
inductive AuditNode where
  | alterTable
  | otherNode
deriving DecidableEq

/-- onlineddlWithGhost (driver file, lines 220-241): no ghost when the
threshold is unconfigured (-1); non-ALTER statements never use ghost;
otherwise resolve the table size and use ghost iff size > threshold
(strict).  Parsing already succeeded in audit, so the node is passed
directly; the table-size resolution is the GetTableSize collaborator. -/
def onlineddlWithGhost (ghostMinSize : Int) (node : AuditNode)
    (tableSize : Except String Int) : Except String Bool :=
  if ghostMinSize = -1 then .ok false
  else
    match node with
    | .otherNode => .ok false
    | .alterTable =>
      match tableSize with
      | .error e => .error ("get table size: " ++ e)
      | .ok s => .ok (decide (s > ghostMinSize))

/-- Result of CheckInvalid / CheckInvalidOffline as consumed by audit
(lines 346-359): success, the downgradable show-create-table parse error
(IsParseShowCreateTableContentErr), or any other error. -/
inductive CheckInvalidRes where
  | ciOk
  | ciParseShowCreateErr
  | ciOtherErr (e : String)

/-- Result of generateOSCCommandLine as consumed by audit (lines
445-453): a command line (or none), the downgradable show-create-table
parse error, or any other error. -/
inductive OscRes where
  | oscOk (cmd : Option String)
  | oscParseShowCreateErr
  | oscOtherErr (e : String)

/-- The collaborators and configuration one call of audit depends on. -/
structure AuditEnv where
  /-- ParseSql result for the audited text (first node's kind). -/
  node : Except String AuditNode
  checkInvalid : CheckInvalidRes
  /-- cnf.dmlExplainPreCheckEnable. -/
  dmlExplainPreCheckEnable : Bool
  /-- CheckExplain: findings it appends, or an aborting error. -/
  explainPreCheck : Except String (List Finding)
  rules : List Rule
  outcome : String → DispatchOutcome
  /-- cnf.optimizeIndexEnabled. -/
  optimizeEnabled : Bool
  /-- The advice list the optimize pass produces. -/
  optimizeAdvices : List String
  /-- cnf.DDLGhostMinSize. -/
  ghostMinSize : Int
  /-- Ctx.GetTableSize for the audited table. -/
  tableSize : Except String Int
  /-- executeByGhost(sql, dryRun=true). -/
  ghostDryRun : Except String Unit
  osc : OscRes

/-- The pre-validation stage (lines 346-359): a show-create-table parse
error is downgraded to a warning finding, any other error aborts. -/
def checkInvalidStage : CheckInvalidRes → Except String (List Finding)
  | .ciOk => .ok []
  | .ciParseShowCreateErr => .ok [⟨.lvlWarn, preCheckErrRuleName, none⟩]
  | .ciOtherErr e => .error e

/-- The DML explain pre-check stage (lines 361-365): runs only when no
finding was produced yet and the feature is enabled. -/
def explainPreStage (enable : Bool) (pre : Except String (List Finding))
    (res : List Finding) : Except String (List Finding) :=
  if res.isEmpty && enable then
    match pre with
    | .error e => .error e
    | .ok fs => .ok (res ++ fs)
  else .ok res

/-- The index-optimization stage (lines 407-428): when enabled, each
advice adds a notice-level finding attributed to
ConfigOptimizeIndexEnabled. -/
def optimizeStage (enabled : Bool) (advices : List String)
    (res : List Finding) : List Finding :=
  if enabled then
    res ++ advices.map (fun a => ⟨.lvlNotice, configOptimizeIndexEnabled, some a⟩)
  else res

/-- The online-DDL stage of audit (lines 430-442): decide the ghost path;
when taken, a dry-run failure adds an error-level finding attributed to
the ghost rule, a dry-run success adds a finding at the ghost rule's
configured level; a missing ghost rule is the Go nil-dereference, modelled
as an aborting error. -/
def ghostStage (ghostMinSize : Int) (node : AuditNode)
    (tableSize : Except String Int) (rules : List Rule)
    (dryRun : Except String Unit) (res : List Finding) :
    Except String (List Finding) :=
  match onlineddlWithGhost ghostMinSize node tableSize with
  | .error e => .error e
  | .ok false => .ok res
  | .ok true =>
    match findGhostRule rules with
    | none => .error "nil ghost rule"
    | some g =>
      match dryRun with
      | .error e => .ok (res ++ [⟨.lvlError, g.name, some e⟩])
      | .ok _ => .ok (res ++ [⟨g.level, g.name, none⟩])

/-- The OSC stage of audit (lines 444-453): a show-create-table parse
error is logged and skipped, other errors abort, a produced command line
adds a notice-level finding attributed to ConfigDDLOSCMinSize. -/
def oscStage (osc : OscRes) (res : List Finding) : Except String (List Finding) :=
  match osc with
  | .oscOtherErr e => .error e
  | .oscParseShowCreateErr => .ok res
  | .oscOk none => .ok res
  | .oscOk (some cmd) => .ok (res ++ [⟨.lvlNotice, configDDLOSCMinSize, some cmd⟩])

/-- audit (driver file, lines 338-460): per-statement pipeline of parse,
pre-validation, DML explain pre-check, rule dispatch, index optimization,
online-DDL decision with ghost dry run, and OSC annotation.  The context
update (line 455-457) has no effect on the returned result set. -/
def audit (env : AuditEnv) : Except String (List Finding) :=
  match env.node with
  | .error e => .error e
  | .ok node =>
    match checkInvalidStage env.checkInvalid with
    | .error e => .error e
    | .ok res1 =>
      match explainPreStage env.dmlExplainPreCheckEnable env.explainPreCheck res1 with
      | .error e => .error e
      | .ok res2 =>
        let res3 := dispatchRules env.outcome env.rules res2
        let res4 := optimizeStage env.optimizeEnabled env.optimizeAdvices res3
        match ghostStage env.ghostMinSize node env.tableSize env.rules
            env.ghostDryRun res4 with
        | .error e => .error e
        | .ok res5 => oscStage env.osc res5

/-- The Go Audit return value ([]*driverV2.AuditResults, error): a nil or
populated results slice together with an optional error. -/
structure AuditReturn where
  results : Option (List (List Finding))
  err : Option String
deriving DecidableEq

/-- The statement loop of Audit (lines 327-335): audit each statement in
order; on the first error return (nil, err), otherwise append. -/
def auditLoop (auditOne : String → Except String (List Finding)) :
    List String → List (List Finding) → AuditReturn
  | [], acc => ⟨some acc, none⟩
  | s :: rest, acc =>
    match auditOne s with
    | .error e => ⟨none, some e⟩
    | .ok r => auditLoop auditOne rest (acc ++ [r])

/-- Audit (driver file, lines 321-336): reject the whole batch when any
element is the empty string, before auditing anything; otherwise audit
the statements strictly in sequence. -/
def Audit (auditOne : String → Except String (List Finding))
    (sqls : List String) : AuditReturn :=
  if sqls.any (fun s => s == "") then ⟨none, some "has empty sql"⟩
  else auditLoop auditOne sqls []

end MysqlDriver

/-
Part 3 embeds rule/ai/rule_00063.go (RuleSQLE00063): unique-index naming
checks over ALTER TABLE (add constraint / rename index), CREATE INDEX and
CREATE TABLE.  The rule's observable effect is whether AddResult was
called, returned here as a Bool; the session-context lookup
(util.GetCreateTableStmt) is an oracle argument delivering the target
table's constraints.
-/

namespace RuleAI

/-- The constraint kinds distinguished by the rule (ast.ConstraintUniq vs
everything else). -/
inductive ConstraintTp where
  | uniq
  | otherConstraint
deriving DecidableEq, BEq

/-- One table constraint as consulted by the rule: name, kind and the
names of its key columns. -/
structure TableConstraint where
  name : String
  tp : ConstraintTp
  keys : List String
deriving DecidableEq

/-- util.GetTableConstraints: filter the constraints of the given kind. -/
def getTableConstraints (cs : List TableConstraint) (tp : ConstraintTp) :
    List TableConstraint :=
  cs.filter (fun c => c.tp == tp)

/-- strings.EqualFold, modelled as case-insensitive string equality. -/
def equalFold (a b : String) : Bool :=
  decide (a.toLower = b.toLower)

/-- The isIndexNameViolate helper of RuleSQLE00063 (rule_00063.go 80-85):
the index name violates unless it case-insensitively equals
IDX_UK_<table>_<col1_col2_...>. -/
def isIndexNameViolate (indexName tableName : String) (cols : List String) : Bool :=
  !(equalFold indexName
      ("IDX_UK_" ++ tableName ++ "_" ++ String.intercalate "_" cols))

/-- One ALTER TABLE spec as consulted by the rule: ADD CONSTRAINT
(with its optional constraint), RENAME INDEX (from/to key names), or any
other spec kind. -/
inductive AlterSpec where
  | addConstraint (c : Option TableConstraint)
  | renameIndex (fromKey toKey : String)
  | otherSpec
deriving DecidableEq

/-- The statement kinds the rule type-switches on. -/
inductive RuleNode where
  | alterTableStmt (table : String) (specs : List AlterSpec)
  | createIndexStmt (uniqueKey : Bool) (table : String) (indexName : String)
      (cols : List String)
  | createTableStmt (table : String) (constraints : List TableConstraint)
  | otherNode

/-- The spec loop of the AlterTableStmt case (rule_00063.go 92-132).
An ADD CONSTRAINT of a unique index checks that index's own name; a
RENAME INDEX fetches the table's constraints (an error or an absence of
unique constraints ends the rule), then scans every unique constraint
under the guard EqualFold(oldIdxname, oldIdxname), reporting when the new
name violates against that constraint's columns. -/
def alterSpecsLoop (ctx : Except String (List TableConstraint))
    (tableName : String) : List AlterSpec → Bool
  | [] => false
  | spec :: rest =>
    match spec with
    | .addConstraint c =>
      match c with
      | some con =>
        if con.tp == ConstraintTp.uniq then
          if isIndexNameViolate con.name tableName con.keys then true
          else alterSpecsLoop ctx tableName rest
        else alterSpecsLoop ctx tableName rest
      | none => alterSpecsLoop ctx tableName rest
    | .renameIndex oldK newK =>
      match ctx with
      | .error _ => false
      | .ok constraints =>
        let constraintUniqs := getTableConstraints constraints ConstraintTp.uniq
        if constraintUniqs.isEmpty then false
        else
          if constraintUniqs.any (fun c =>
              equalFold oldK oldK && isIndexNameViolate newK tableName c.keys)
          then true
          else alterSpecsLoop ctx tableName rest
    | .otherSpec => alterSpecsLoop ctx tableName rest

/-- RuleSQLE00063 (rule_00063.go 78-165): returns whether the rule added
the SQLE00063 violation result. -/
def RuleSQLE00063 (ctx : Except String (List TableConstraint))
    (node : RuleNode) : Bool :=
  match node with
  | .alterTableStmt table specs => alterSpecsLoop ctx table specs
  | .createIndexStmt uniqueKey table indexName cols =>
      if uniqueKey then isIndexNameViolate indexName table cols else false
  | .createTableStmt table constraints =>
      (getTableConstraints constraints ConstraintTp.uniq).any
        (fun c => isIndexNameViolate c.name table c.keys)
  | .otherNode => false

end RuleAI

/-
Theorems settling the claims.
-/

/-- C1: for every DML statement accepted by the classifier, once the
rewritten counting SQL fails the re-parse/count-aggregate check
(checkSql), GetAffectedRowNum returns an error and performs no live
action at all: the rewritten SQL is submitted neither to EXPLAIN nor to a
live query (empty action trace). -/
theorem c1_check_failure_blocks_live_execution (env : MysqlUtil.Env)
    (sql : String) (node : MysqlUtil.SqlNode)
    (nn : Option MysqlUtil.CountSelect) (cc : Bool) (osql asql e : String)
    (hp : env.parse sql = .ok node)
    (hc : MysqlUtil.classify node sql = .build nn cc osql)
    (hb : MysqlUtil.buildSql nn cc osql = .ok asql)
    (hk : MysqlUtil.checkSql env asql = .error e) :
    MysqlUtil.GetAffectedRowNum env sql =
      (.error ("check sql failed: " ++ e), []) := by
  simp [MysqlUtil.GetAffectedRowNum, hp, hc, hb, hk]

/-- Environment for the C1 witness: the origin statement parses as a
DELETE; the re-parsed rewrite is never recognised as a single count
aggregate, so the check must fail. -/
def c1Env : MysqlUtil.Env :=
  { parse := fun s =>
      if s == "DELETE FROM t" then
        .ok (.deleteStmt ⟨some "t", none, none, none⟩)
      else .ok .otherStmt
    isSelectOnlyIncludeCountFunc := fun _ => false
    explain := fun _ => .ok []
    query := fun _ => .ok []
    parseInt := fun _ => .error "not an int" }

/-- C1 witness: concrete run in which the rewrite check fails and the
estimator returns the error with an empty live-action trace. -/
theorem c1_witness :
    MysqlUtil.GetAffectedRowNum c1Env "DELETE FROM t" =
      (.error ("check sql failed: " ++ "affectRowSql error"), []) :=
  c1_check_failure_blocks_live_execution c1Env "DELETE FROM t"
    (.deleteStmt ⟨some "t", none, none, none⟩)
    (some ⟨some "t", none, none, none⟩) false "DELETE FROM t"
    "SELECT COUNT(1) FROM t" "affectRowSql error" rfl rfl rfl rfl

/-- C7: an INSERT with literal VALUES tuples and no subquery makes
GetAffectedRowNum return the number of tuples immediately, with an empty
live-action trace: no rewrite is checked, no EXPLAIN and no live query is
issued. -/
theorem c7_literal_insert_counts_tuples (env : MysqlUtil.Env) (sql : String)
    (tuples : List Unit)
    (hp : env.parse sql = .ok (.insertStmt ⟨some tuples, none⟩)) :
    MysqlUtil.GetAffectedRowNum env sql =
      (.ok (Int.ofNat tuples.length), []) := by
  simp [MysqlUtil.GetAffectedRowNum, hp, MysqlUtil.classify]

/-- Environment for the C7 witness: a three-tuple literal INSERT. -/
def c7Env : MysqlUtil.Env :=
  { parse := fun _ => .ok (.insertStmt ⟨some [(), (), ()], none⟩)
    isSelectOnlyIncludeCountFunc := fun _ => true
    explain := fun _ => .error "explain must not be called"
    query := fun _ => .error "query must not be called"
    parseInt := fun _ => .error "not an int" }

/-- C7 witness: INSERT INTO t(c) VALUES (1),(2),(3) returns 3 with no
live actions. -/
theorem c7_witness :
    MysqlUtil.GetAffectedRowNum c7Env "INSERT INTO t(c) VALUES (1),(2),(3)" =
      (.ok 3, []) :=
  c7_literal_insert_counts_tuples c7Env
    "INSERT INTO t(c) VALUES (1),(2),(3)" [(), (), ()] rfl

/-- C4: after the rewrite passes validation and EXPLAIN returns the plan
rows, the estimator skips live execution and returns the plan's estimated
row count (the last plan row's Rows, per the loop at util.go 124-132)
exactly when some plan row has the full-table-scan access type or the
summed row estimates exceed 100000; otherwise it runs the rewritten count
query live and returns its scalar result. -/
theorem c4_explain_gate (env : MysqlUtil.Env) (sql : String)
    (node : MysqlUtil.SqlNode) (nn : Option MysqlUtil.CountSelect)
    (cc : Bool) (osql asql : String) (recs : List MysqlUtil.ExplainRecord)
    (c : String) (rest : List String) (n : Int)
    (hp : env.parse sql = .ok node)
    (hc : MysqlUtil.classify node sql = .build nn cc osql)
    (hb : MysqlUtil.buildSql nn cc osql = .ok asql)
    (hk : MysqlUtil.checkSql env asql = .ok ())
    (he : env.explain asql = .ok recs)
    (hq : env.query asql = .ok (c :: rest))
    (hpi : env.parseInt c = .ok n) :
    ((recs.any (fun r => r.tp == MysqlUtil.explainRecordAccessTypeAll)
        || decide (MysqlUtil.sumRows recs > 100000)) = true →
      MysqlUtil.GetAffectedRowNum env sql =
        (.ok (MysqlUtil.lastRows recs), [.explainAct asql])) ∧
    ((recs.any (fun r => r.tp == MysqlUtil.explainRecordAccessTypeAll)
        || decide (MysqlUtil.sumRows recs > 100000)) = false →
      MysqlUtil.GetAffectedRowNum env sql =
        (.ok n, [.explainAct asql, .queryAct asql])) := by
  constructor
  · intro hgate
    simp [MysqlUtil.GetAffectedRowNum, hp, hc, hb, hk, he, hgate]
  · intro hgate
    simp [MysqlUtil.GetAffectedRowNum, hp, hc, hb, hk, he, hgate, hq, hpi]

/-- Environment for the C4 witness: a plain SELECT whose rewritten count
query has a full-table-scan plan row estimating 7 rows. -/
def c4Env : MysqlUtil.Env :=
  { parse := fun s =>
      if s == "SELECT * FROM t" then
        .ok (.selectStmt ⟨some "t", none, none, none, none, none⟩)
      else .ok .otherStmt
    isSelectOnlyIncludeCountFunc := fun _ => true
    explain := fun _ => .ok [⟨"ALL", 7⟩]
    query := fun _ => .ok ["7"]
    parseInt := fun _ => .ok 7 }

/-- C4 witness: with a full-table-scan plan the estimator returns the
plan estimate after the EXPLAIN action only. -/
theorem c4_witness :
    MysqlUtil.GetAffectedRowNum c4Env "SELECT * FROM t" =
      (.ok (MysqlUtil.lastRows [⟨"ALL", 7⟩]),
       [.explainAct "SELECT COUNT(1) FROM t"]) :=
  (c4_explain_gate c4Env "SELECT * FROM t"
    (.selectStmt ⟨some "t", none, none, none, none, none⟩)
    (some ⟨some "t", none, none, none⟩) false "SELECT * FROM t"
    "SELECT COUNT(1) FROM t" [⟨"ALL", 7⟩] "7" [] 7
    rfl rfl rfl rfl rfl rfl rfl).1 (by decide)

/-- C8: when the live execution of the validated rewritten count query
returns an empty result set, GetAffectedRowNum returns 0 and no error. -/
theorem c8_empty_result_is_zero (env : MysqlUtil.Env) (sql : String)
    (node : MysqlUtil.SqlNode) (nn : Option MysqlUtil.CountSelect)
    (cc : Bool) (osql asql : String) (recs : List MysqlUtil.ExplainRecord)
    (hp : env.parse sql = .ok node)
    (hc : MysqlUtil.classify node sql = .build nn cc osql)
    (hb : MysqlUtil.buildSql nn cc osql = .ok asql)
    (hk : MysqlUtil.checkSql env asql = .ok ())
    (he : env.explain asql = .ok recs)
    (hgate : (recs.any (fun r => r.tp == MysqlUtil.explainRecordAccessTypeAll)
        || decide (MysqlUtil.sumRows recs > 100000)) = false)
    (hq : env.query asql = .ok []) :
    MysqlUtil.GetAffectedRowNum env sql =
      (.ok 0, [.explainAct asql, .queryAct asql]) := by
  simp [MysqlUtil.GetAffectedRowNum, hp, hc, hb, hk, he, hgate, hq]

/-- Environment for the C8 witness: SELECT with a LIMIT, so the rewrite
wraps the statement; the indexed plan is cheap and the live count query
returns an empty result set. -/
def c8Env : MysqlUtil.Env :=
  { parse := fun s =>
      if s == "SELECT * FROM t LIMIT 10,10" then
        .ok (.selectStmt ⟨some "t", none, none, none, none, some "10,10"⟩)
      else .ok .otherStmt
    isSelectOnlyIncludeCountFunc := fun _ => true
    explain := fun _ => .ok [⟨"ref", 50⟩]
    query := fun _ => .ok []
    parseInt := fun _ => .error "not an int" }

/-- C8 witness: an empty LIMIT window yields count 0, not an error. -/
theorem c8_witness :
    MysqlUtil.GetAffectedRowNum c8Env "SELECT * FROM t LIMIT 10,10" =
      (.ok 0,
       [.explainAct (MysqlUtil.wrapSql "SELECT * FROM t LIMIT 10,10"),
        .queryAct (MysqlUtil.wrapSql "SELECT * FROM t LIMIT 10,10")]) :=
  c8_empty_result_is_zero c8Env "SELECT * FROM t LIMIT 10,10"
    (.selectStmt ⟨some "t", none, none, none, none, some "10,10"⟩)
    (some ⟨some "t", none, none, some "10,10"⟩) true "SELECT * FROM t LIMIT 10,10"
    (MysqlUtil.wrapSql "SELECT * FROM t LIMIT 10,10") [⟨"ref", 50⟩]
    rfl rfl rfl rfl rfl (by decide) rfl

/-- The trigger condition as the claim words it: the statement contains a
GROUP BY clause (with or without HAVING) or a LIMIT clause.  Stated over
the statement forms the estimator accepts; used to compare the claim
against the code's branching. -/
def specHasGroupByOrLimit : MysqlUtil.SqlNode → Bool
  | .selectStmt s => s.groupBy.isSome || s.limit.isSome
  | .insertStmt ins =>
    match ins.sel with
    | some (.innerSelect s) => s.groupBy.isSome || s.limit.isSome
    | _ => false
  | .updateStmt u => u.limit.isSome
  | .deleteStmt d => d.limit.isSome
  | .otherStmt => false

/-- A DELETE with a LIMIT clause, as parsed. -/
def c3DeleteNode : MysqlUtil.SqlNode :=
  .deleteStmt ⟨some "t", none, none, some "5"⟩

/-- C3 counterexample: DELETE FROM t LIMIT 5 contains a LIMIT clause,
yet its counting rewrite is the fresh SELECT COUNT(1) form reusing the
LIMIT, not the derived-table wrap the claim requires for every
LIMIT-bearing statement. -/
theorem c3_counterexample :
    specHasGroupByOrLimit c3DeleteNode = true ∧
    MysqlUtil.rewriteOf c3DeleteNode "DELETE FROM t LIMIT 5" =
      .ok "SELECT COUNT(1) FROM t LIMIT 5" ∧
    "SELECT COUNT(1) FROM t LIMIT 5" ≠ MysqlUtil.wrapSql "DELETE FROM t LIMIT 5" := by
  refine ⟨rfl, rfl, by decide⟩

/-- C3 amended: the derived-table wrap is applied only when the top-level
statement is a SELECT with GROUP BY or LIMIT (and to an INSERT ... SELECT
whose source is a UNION, wrapping the union's restored text); a SELECT
without those clauses, an UPDATE, a DELETE, and the inner select of an
INSERT ... SELECT are always rebuilt as a fresh SELECT COUNT(1) reusing
only their FROM, WHERE, ORDER BY and LIMIT clauses. -/
theorem c3_amended_rewrite_policy (osql utext : String)
    (s : MysqlUtil.SelectData) (u : MysqlUtil.UpdateData)
    (d : MysqlUtil.DeleteData) :
    MysqlUtil.rewriteOf (.selectStmt s) osql =
      .ok (if s.groupBy.isSome || s.limit.isSome then MysqlUtil.wrapSql osql
           else MysqlUtil.restoreCountSelect (MysqlUtil.getSelectNodeFromSelect s)) ∧
    MysqlUtil.rewriteOf (.updateStmt u) osql =
      .ok (MysqlUtil.restoreCountSelect (MysqlUtil.getSelectNodeFromUpdate u)) ∧
    MysqlUtil.rewriteOf (.deleteStmt d) osql =
      .ok (MysqlUtil.restoreCountSelect (MysqlUtil.getSelectNodeFromDelete d)) ∧
    MysqlUtil.rewriteOf (.insertStmt ⟨none, some (.innerSelect s)⟩) osql =
      .ok (MysqlUtil.restoreCountSelect (MysqlUtil.getSelectNodeFromSelect s)) ∧
    MysqlUtil.rewriteOf (.insertStmt ⟨none, some (.innerUnion utext)⟩) osql =
      .ok (MysqlUtil.wrapSql utext) := by
  refine ⟨?_, ?_, ?_, ?_, ?_⟩
  · cases hg : (s.groupBy.isSome || s.limit.isSome) <;>
      simp [MysqlUtil.rewriteOf, MysqlUtil.classify, MysqlUtil.buildSql, hg]
  · simp [MysqlUtil.rewriteOf, MysqlUtil.classify, MysqlUtil.buildSql]
  · simp [MysqlUtil.rewriteOf, MysqlUtil.classify, MysqlUtil.buildSql]
  · simp [MysqlUtil.rewriteOf, MysqlUtil.classify, MysqlUtil.buildSql]
  · simp [MysqlUtil.rewriteOf, MysqlUtil.classify, MysqlUtil.buildSql]

/-- C9: in the RENAME INDEX branch of RuleSQLE00063, the guard
EqualFold(oldIdxname, oldIdxname) holds for every input, and consequently
the rule's verdict on ALTER TABLE ... RENAME INDEX is exactly "some
unique constraint of the table has columns for which the new index name
violates the naming format" — the old index name never restricts which
constraints are checked. -/
theorem c9_rename_index_checks_all_unique_constraints
    (oldIdx newIdx tbl : String) (cs : List RuleAI.TableConstraint) :
    RuleAI.equalFold oldIdx oldIdx = true ∧
    RuleAI.RuleSQLE00063 (.ok cs)
        (.alterTableStmt tbl [.renameIndex oldIdx newIdx]) =
      (RuleAI.getTableConstraints cs .uniq).any
        (fun c => RuleAI.isIndexNameViolate newIdx tbl c.keys) := by
  constructor
  · simp [RuleAI.equalFold]
  · cases h : RuleAI.getTableConstraints cs .uniq with
    | nil => simp [RuleAI.RuleSQLE00063, RuleAI.alterSpecsLoop, h]
    | cons hd tl =>
      simp [RuleAI.RuleSQLE00063, RuleAI.alterSpecsLoop, h, RuleAI.equalFold]
      cases hany : tl.any (fun c => RuleAI.isIndexNameViolate newIdx tbl c.keys) <;>
        simp_all [List.any_eq_true, List.any_eq_false]

/-- Findings already accumulated survive the rest of the dispatch loop:
the loop only ever appends. -/
theorem mem_dispatchRules_of_mem (outcome : String → MysqlDriver.DispatchOutcome)
    (rs : List MysqlDriver.Rule) (acc : List MysqlDriver.Finding)
    (f : MysqlDriver.Finding) (hf : f ∈ acc) :
    f ∈ MysqlDriver.dispatchRules outcome rs acc := by
  induction rs generalizing acc with
  | nil => simpa [MysqlDriver.dispatchRules] using hf
  | cons r rs ih =>
    rw [MysqlDriver.dispatchRules]
    cases houtcome : outcome r.name with
    | skip => exact ih acc hf
    | run appended err =>
      cases err with
      | none => exact ih _ (by simp [hf])
      | some e => exact ih _ (by simp [hf])

/-- C5: a rule handler that returns an error does not stop the dispatch
loop — the loop continues exactly as a dispatch over the remaining rules,
with the failure recorded as a finding carrying the failing rule's name
at that rule's configured level; that finding is in the statement's final
result set. -/
theorem c5_rule_failure_is_isolated (outcome : String → MysqlDriver.DispatchOutcome)
    (r : MysqlDriver.Rule) (rs : List MysqlDriver.Rule)
    (acc appended : List MysqlDriver.Finding) (e : String)
    (h : outcome r.name = .run appended (some e)) :
    MysqlDriver.dispatchRules outcome (r :: rs) acc =
      MysqlDriver.dispatchRules outcome rs
        (acc ++ appended ++ [⟨r.level, r.name, some e⟩]) ∧
    MysqlDriver.Finding.mk r.level r.name (some e) ∈
      MysqlDriver.dispatchRules outcome (r :: rs) acc := by
  constructor
  · rw [MysqlDriver.dispatchRules, h]
  · rw [MysqlDriver.dispatchRules, h]
    exact mem_dispatchRules_of_mem _ _ _ _ (by simp)

/-- Dispatch outcomes for the C5 witness: rule r1 fails internally, rule
r2 runs cleanly and produces a warning finding. -/
def c5Outcome : String → MysqlDriver.DispatchOutcome := fun n =>
  if n == "r1" then .run [] (some "handler blew up")
  else if n == "r2" then .run [⟨.lvlWarn, "r2", none⟩] none
  else .skip

/-- C5 witness: with rule r1 failing first, the loop still dispatches r2
and the result set holds r1's error-attributed finding. -/
theorem c5_witness :
    MysqlDriver.dispatchRules c5Outcome [⟨"r1", .lvlError⟩, ⟨"r2", .lvlWarn⟩] [] =
      MysqlDriver.dispatchRules c5Outcome [⟨"r2", .lvlWarn⟩]
        ([] ++ [] ++ [⟨.lvlError, "r1", some "handler blew up"⟩]) ∧
    MysqlDriver.Finding.mk .lvlError "r1" (some "handler blew up") ∈
      MysqlDriver.dispatchRules c5Outcome [⟨"r1", .lvlError⟩, ⟨"r2", .lvlWarn⟩] [] :=
  c5_rule_failure_is_isolated c5Outcome ⟨"r1", .lvlError⟩ [⟨"r2", .lvlWarn⟩]
    [] [] "handler blew up" rfl

/-- C10: a batch containing the empty string is rejected up front: Audit
returns the error and a nil results slice, and the outcome does not
depend on the per-statement audit at all (no statement of the batch,
preceding non-empty ones included, is audited). -/
theorem c10_empty_sql_rejects_whole_batch
    (auditOne : String → Except String (List MysqlDriver.Finding))
    (sqls : List String) (h : "" ∈ sqls) :
    MysqlDriver.Audit auditOne sqls = ⟨none, some "has empty sql"⟩ := by
  have hany : (sqls.any fun s => s == "") = true := by
    rw [List.any_eq_true]
    exact ⟨"", h, by simp⟩
  simp [MysqlDriver.Audit, hany]

/-- C10 witness: the batch ["SELECT 1", ""] is rejected even though a
non-empty statement precedes the empty one, for an audit function that
would accept anything. -/
theorem c10_witness :
    MysqlDriver.Audit (fun _ => .ok []) ["SELECT 1", ""] =
      ⟨none, some "has empty sql"⟩ :=
  c10_empty_sql_rejects_whole_batch (fun _ => .ok []) ["SELECT 1", ""]
    (by simp)

/-- Per-statement audit function for the C6 counterexample: statement
"a" audits cleanly, everything else fails. -/
def c6AuditOne : String → Except String (List MysqlDriver.Finding) :=
  fun s => if s == "a" then .ok [] else .error "audit failed"

/-- C6 counterexample: in the batch ["a", "b"] the first statement
completes and the second fails, yet Audit returns a nil results slice —
not the partial results ([result of "a"]) the claim promises alongside
the error. -/
theorem c6_counterexample :
    c6AuditOne "a" = .ok [] ∧
    MysqlDriver.Audit c6AuditOne ["a", "b"] = ⟨none, some "audit failed"⟩ ∧
    (⟨none, some "audit failed"⟩ : MysqlDriver.AuditReturn) ≠
      ⟨some [[]], some "audit failed"⟩ := by
  refine ⟨rfl, rfl, by decide⟩

/-- The audit loop discards the accumulator on the first failing
statement. -/
theorem auditLoop_error_of_first_failure
    (auditOne : String → Except String (List MysqlDriver.Finding))
    (pre : List String) (s : String) (rest : List String) (e : String)
    (hpre : ∀ x ∈ pre, ∃ r, auditOne x = .ok r)
    (hs : auditOne s = .error e) :
    ∀ acc, MysqlDriver.auditLoop auditOne (pre ++ s :: rest) acc =
      ⟨none, some e⟩ := by
  induction pre with
  | nil =>
    intro acc
    simp [MysqlDriver.auditLoop, hs]
  | cons p ps ih =>
    intro acc
    obtain ⟨r, hr⟩ := hpre p (by simp)
    rw [List.cons_append, MysqlDriver.auditLoop, hr]
    exact ih (fun x hx => hpre x (by simp [hx])) _

/-- C6 amended: when a statement's audit fails with a non-recoverable
error, the remaining statements are not audited, and Audit returns the
error together with a nil results slice — the results of the statements
already completed are discarded, not returned. -/
theorem c6_amended_batch_abort_discards_results
    (auditOne : String → Except String (List MysqlDriver.Finding))
    (pre : List String) (s : String) (rest : List String) (e : String)
    (hempty : ((pre ++ s :: rest).any fun x => x == "") = false)
    (hpre : ∀ x ∈ pre, ∃ r, auditOne x = .ok r)
    (hs : auditOne s = .error e) :
    MysqlDriver.Audit auditOne (pre ++ s :: rest) = ⟨none, some e⟩ := by
  rw [MysqlDriver.Audit, if_neg (by simp [hempty])]
  exact auditLoop_error_of_first_failure auditOne pre s rest e hpre hs []

/-- C6 witness: the two-statement batch from the counterexample, through
the amended theorem. -/
theorem c6_witness :
    MysqlDriver.Audit c6AuditOne ["a", "b"] = ⟨none, some "audit failed"⟩ :=
  c6_amended_batch_abort_discards_results c6AuditOne ["a"] "b" [] "audit failed"
    rfl (fun x hx => ⟨[], by simp at hx; simp [hx, c6AuditOne]⟩) rfl

/-- C2: for an ALTER TABLE audited with a configured ghost threshold and
a resolved table size, the ghost path is decided by the strict comparison
size > threshold; when it is taken, a failed gh-ost dry run adds an
error-level finding attributed to the ghost rule and a successful dry run
adds a finding at the ghost rule's configured level, and in both cases
the statement's audit completes with a result instead of aborting. -/
theorem c2_ghost_decision_and_findings (env : MysqlDriver.AuditEnv)
    (S : Int) (g : MysqlDriver.Rule)
    (hT : env.ghostMinSize ≠ -1)
    (hnode : env.node = .ok .alterTable)
    (hsize : env.tableSize = .ok S)
    (hg : MysqlDriver.findGhostRule env.rules = some g)
    (hinv : env.checkInvalid = .ciOk)
    (hpre : env.dmlExplainPreCheckEnable = false)
    (hosc : env.osc = .oscOk none) :
    MysqlDriver.onlineddlWithGhost env.ghostMinSize .alterTable env.tableSize =
      .ok (decide (S > env.ghostMinSize)) ∧
    (∀ e, S > env.ghostMinSize → env.ghostDryRun = .error e →
      ∃ res, MysqlDriver.audit env = .ok res ∧
        MysqlDriver.Finding.mk .lvlError g.name (some e) ∈ res) ∧
    (S > env.ghostMinSize → env.ghostDryRun = .ok () →
      ∃ res, MysqlDriver.audit env = .ok res ∧
        MysqlDriver.Finding.mk g.level g.name none ∈ res) := by
  refine ⟨?_, ?_, ?_⟩
  · simp [MysqlDriver.onlineddlWithGhost, hT, hsize]
  · intro e hgt hdry
    have haudit : MysqlDriver.audit env = .ok
        (MysqlDriver.optimizeStage env.optimizeEnabled env.optimizeAdvices
          (MysqlDriver.dispatchRules env.outcome env.rules []) ++
          [⟨.lvlError, g.name, some e⟩]) := by
      simp [MysqlDriver.audit, hnode, hinv, hpre, hosc,
        MysqlDriver.checkInvalidStage, MysqlDriver.explainPreStage,
        MysqlDriver.ghostStage, MysqlDriver.onlineddlWithGhost, hT, hsize,
        hgt, hg, hdry, MysqlDriver.oscStage]
    exact ⟨_, haudit, by simp⟩
  · intro hgt hdry
    have haudit : MysqlDriver.audit env = .ok
        (MysqlDriver.optimizeStage env.optimizeEnabled env.optimizeAdvices
          (MysqlDriver.dispatchRules env.outcome env.rules []) ++
          [⟨g.level, g.name, none⟩]) := by
      simp [MysqlDriver.audit, hnode, hinv, hpre, hosc,
        MysqlDriver.checkInvalidStage, MysqlDriver.explainPreStage,
        MysqlDriver.ghostStage, MysqlDriver.onlineddlWithGhost, hT, hsize,
        hgt, hg, hdry, MysqlDriver.oscStage]
    exact ⟨_, haudit, by simp⟩

/-- Audit environment for the C2 witness: an ALTER TABLE on a 2048-sized
table with a ghost threshold of 1000 and a failing gh-ost dry run. -/
def c2Env : MysqlDriver.AuditEnv :=
  { node := .ok .alterTable
    checkInvalid := .ciOk
    dmlExplainPreCheckEnable := false
    explainPreCheck := .ok []
    rules := [⟨MysqlDriver.configDDLGhostMinSize, .lvlWarn⟩]
    outcome := fun _ => .skip
    optimizeEnabled := false
    optimizeAdvices := []
    ghostMinSize := 1000
    tableSize := .ok 2048
    ghostDryRun := .error "gh-ost dry run failed"
    osc := .oscOk none }

/-- C2 witness: size 2048 > threshold 1000 takes the ghost path; the
failed dry run leaves an error-level finding attributed to the ghost rule
in a completed audit result. -/
theorem c2_witness :
    ∃ res, MysqlDriver.audit c2Env = .ok res ∧
      MysqlDriver.Finding.mk .lvlError MysqlDriver.configDDLGhostMinSize
        (some "gh-ost dry run failed") ∈ res :=
  (c2_ghost_decision_and_findings c2Env 2048
      ⟨MysqlDriver.configDDLGhostMinSize, .lvlWarn⟩
      (by decide) rfl rfl rfl rfl rfl rfl).2.1
    "gh-ost dry run failed" (by decide) rfl


